import Mathlib

/-!
Verification development for the OAuth 2.0 authentication core of
`pi-linear-tools` (files `src/auth/token-store.js`, `src/auth/token-refresh.js`,
`src/auth/oauth.js`, `src/auth/callback-server.js`, `src/auth/index.js`).

The JavaScript source is shallowly embedded: module-level mutable state
becomes an explicit `StoreState` record threaded through the functions,
promise-based asynchronous code becomes explicit state machines processed
under the JavaScript run-to-completion event-loop model, and fallible
functions return `Except`/`Option`.  Strings that JavaScript treats as
falsy (`""`, `0`, `null`/`undefined`) are modelled with `Option` plus
explicit emptiness tests mirroring the truthiness checks of the source.
-/

namespace LinearAuth

/-- JavaScript truthiness of a possibly-absent string: `null`/`undefined`
and the empty string are falsy. -/
def jsTruthyStr : Option String → Bool
  | none => false
  | some s => !(s == "")

/-- JavaScript truthiness of a possibly-absent number: `null`/`undefined`
and `0` are falsy. -/
def jsTruthyInt : Option Int → Bool
  | none => false
  | some n => !(n == 0)

/-- JavaScript `a || b` on an optional string with a default, as used for
`tokens.tokenType || 'Bearer'` in the source. -/
def jsOrStr (v : Option String) (d : String) : String :=
  match v with
  | none => d
  | some s => if s = "" then d else s

/-- JavaScript `tokens.scope || []` in the source: an absent scope array defaults to
`[]`; a present array (even empty) is truthy and kept. -/
def jsOrScope (v : Option (List String)) : List String :=
  match v with
  | none => []
  | some l => l

/-- A parsed JSON token blob as read from any backend; every field may be
absent.  `expiresAt` is modelled as an optional integer (absent covers both
a missing field and a non-numeric value). -/
structure RawTokens where
  accessToken : Option String
  refreshToken : Option String
  expiresAt : Option Int
  scope : Option (List String)
  tokenType : Option String
deriving DecidableEq, Repr

/-- A structurally valid token record, the result of `normalizeTokens`
(`token-store.js` lines 30-43). -/
structure TokenRecord where
  accessToken : String
  refreshToken : String
  expiresAt : Int
  scope : List String
  tokenType : String
deriving DecidableEq, Repr

/-- Re-serialize a normalized record into the raw JSON shape
(`JSON.stringify(fileTokens)` in `getTokens`). -/
def recordToRaw (t : TokenRecord) : RawTokens :=
  ⟨some t.accessToken, some t.refreshToken, some t.expiresAt,
   some t.scope, some t.tokenType⟩

/-- Embedding of `normalizeTokens(tokens, source)` from `token-store.js` lines 30-43:
reject when `tokens` is absent or `accessToken`/`refreshToken`/`expiresAt`
is falsy, otherwise produce the record with `scope` defaulting to `[]` and
`tokenType` defaulting to `'Bearer'`. -/
def normalizeTokens (tokens : Option RawTokens) : Option TokenRecord :=
  match tokens with
  | none => none
  | some t =>
    if jsTruthyStr t.accessToken ∧ jsTruthyStr t.refreshToken ∧ jsTruthyInt t.expiresAt then
      match t.accessToken, t.refreshToken, t.expiresAt with
      | some a, some r, some e =>
        some ⟨a, r, e, jsOrScope t.scope, jsOrStr t.tokenType "Bearer"⟩
      | _, _, _ => none
    else none

/-- The module-level mutable state of `token-store.js` plus the external
stores it talks to: the in-memory blob `inMemoryTokens`, keytar
availability, the keychain entry under the fixed service/account, the
fallback token file, and the three bootstrap environment variables.
Blobs are modelled as parsed JSON values (`RawTokens`). -/
structure StoreState where
  inMemory : Option RawTokens
  keytarAvailable : Bool
  keychain : Option RawTokens
  file : Option RawTokens
  envAccessToken : Option String
  envRefreshToken : Option String
  envExpiresAt : Option String
deriving DecidableEq, Repr

/-- Longest leading run of decimal digits. -/
def takeDigits (cs : List Char) : List Char := cs.takeWhile (·.isDigit)

/-- Value of a digit string. -/
def digitsToNat (cs : List Char) : Nat :=
  cs.foldl (fun acc c => acc * 10 + (c.toNat - 48)) 0

/-- JavaScript `parseInt(s, 10)` restricted to what the source feeds it:
skip leading whitespace, read an optional sign and the longest digit
prefix; `NaN` (no digits) becomes `none`. -/
def parseIntJS (s : String) : Option Int :=
  let cs := s.toList.dropWhile fun c => c = ' ' ∨ c = '\t' ∨ c = '\n' ∨ c = '\r'
  match cs with
  | '-' :: rest =>
    let ds := takeDigits rest
    if ds.isEmpty then none else some (-(digitsToNat ds : Int))
  | '+' :: rest =>
    let ds := takeDigits rest
    if ds.isEmpty then none else some ((digitsToNat ds : Int))
  | _ =>
    let ds := takeDigits cs
    if ds.isEmpty then none else some ((digitsToNat ds : Int))

/-- Embedding of `getTokensFromEnv()` from `token-store.js` lines 305-327: requires all
three environment variables to be truthy and `LINEAR_EXPIRES_AT` to parse
as a number; assumes the default scopes. -/
def getTokensFromEnv (st : StoreState) : Option TokenRecord :=
  if jsTruthyStr st.envAccessToken ∧ jsTruthyStr st.envRefreshToken ∧
      jsTruthyStr st.envExpiresAt then
    match st.envAccessToken, st.envRefreshToken, st.envExpiresAt with
    | some a, some r, some eStr =>
      match parseIntJS eStr with
      | none => none
      | some e =>
        some ⟨a, r, e, ["read", "issues:create", "comments:create"], "Bearer"⟩
    | _, _, _ => none
  else none

/-- Embedding of `clearTokens()` from `token-store.js` lines 259-291: delete the
keychain entry when keytar is available, unlink the fallback file, null
the in-memory blob.  The environment variables cannot be cleared. -/
def clearTokens (st : StoreState) : StoreState :=
  { st with
    keychain := if st.keytarAvailable then none else st.keychain
    file := none
    inMemory := none }

/-- The serialized blob written by `storeTokens` (`token-store.js` lines
128-134): fields as given, `scope` defaulting to `[]`, `tokenType`
defaulting to `'Bearer'`. -/
def serializeStored (tokens : RawTokens) : RawTokens :=
  ⟨tokens.accessToken, tokens.refreshToken, tokens.expiresAt,
   some (jsOrScope tokens.scope), some (jsOrStr tokens.tokenType "Bearer")⟩

/-- Embedding of `storeTokens(tokens)` from `token-store.js` lines 110-169: validate
`accessToken`, `refreshToken` and `expiresAt` (throwing before any backend
is touched), then write the serialized blob to the in-memory cache and to
the keychain (unlinking the fallback file) or, when keytar is unavailable,
to the fallback file.  The returned state is the state reached even when
the function throws. -/
def storeTokens (tokens : RawTokens) (st : StoreState) :
    Except String Unit × StoreState :=
  if ¬ jsTruthyStr tokens.accessToken then
    (.error "Missing accessToken in token record", st)
  else if ¬ jsTruthyStr tokens.refreshToken then
    (.error "Missing refreshToken in token record", st)
  else if tokens.expiresAt = none ∨ tokens.expiresAt = some 0 then
    (.error "Missing or invalid expiresAt in token record", st)
  else
    let tokenData := serializeStored tokens
    let st1 := { st with inMemory := some tokenData }
    if st.keytarAvailable then
      (.ok (), { st1 with keychain := some tokenData, file := none })
    else
      (.ok (), { st1 with file := some tokenData })

/-- Embedding of `readTokensFromFile()` (`token-store.js` lines 45-67) followed by the
caching step of `getTokens` (lines 244-248): a structurally invalid file
blob is unlinked and `null` returned; a valid one is cached into the
in-memory blob and returned. -/
def getTokensFile (st : StoreState) : Option TokenRecord × StoreState :=
  match st.file with
  | none => (none, st)
  | some raw =>
    match normalizeTokens (some raw) with
    | none => (none, { st with file := none })
    | some tok => (some tok, { st with inMemory := some (recordToRaw tok) })

/-- The keychain probe of `getTokens` (`token-store.js` lines 210-242):
when keytar is available and an entry exists, a structurally invalid entry
triggers `clearTokens()` and `null`; a valid one is returned; no entry
falls through to the fallback file, as does an unavailable keytar. -/
def getTokensKeychain (st : StoreState) : Option TokenRecord × StoreState :=
  if st.keytarAvailable then
    match st.keychain with
    | some raw =>
      match normalizeTokens (some raw) with
      | none => (none, clearTokens st)
      | some tok => (some tok, st)
    | none => getTokensFile st
  else getTokensFile st

/-- The probes of `getTokens` after the in-memory cache (`token-store.js`
lines 204-251): environment variables, then keychain, then fallback file. -/
def getTokensAfterMemory (st : StoreState) : Option TokenRecord × StoreState :=
  match getTokensFromEnv st with
  | some tok => (some tok, st)
  | none => getTokensKeychain st

/-- Embedding of `getTokens()` from `token-store.js` lines 181-252: probe the in-memory
cache (purging it and continuing when structurally invalid), then the
environment, then the keychain, then the fallback file. -/
def getTokens (st : StoreState) : Option TokenRecord × StoreState :=
  match st.inMemory with
  | some raw =>
    match normalizeTokens (some raw) with
    | some tok => (some tok, st)
    | none => getTokensAfterMemory { st with inMemory := none }
  | none => getTokensAfterMemory st

/-! Embedding of `src/auth/oauth.js`. -/

/-- Client id from `OAUTH_CONFIG` in `oauth.js`. -/
def oauthClientId : String := "a3e177176c6697611367f1a2405d4a34"

/-- Authorize endpoint from `OAUTH_CONFIG` in `oauth.js`. -/
def oauthAuthUrl : String := "https://linear.app/oauth/authorize"

/-- Default redirect URI from `OAUTH_CONFIG` in `oauth.js`. -/
def oauthRedirectUri : String := "http://localhost:34711/callback"

/-- Default scopes from `OAUTH_CONFIG` in `oauth.js`. -/
def oauthScopes : List String := ["read", "issues:create", "comments:create"]

/-- Prompt value from `OAUTH_CONFIG` in `oauth.js`. -/
def oauthPrompt : String := "consent"

/-- UTF-8 bytes of a code point, for the URL query serializer. -/
def utf8Bytes (n : Nat) : List Nat :=
  if n < 128 then [n]
  else if n < 2048 then
    [192 ||| (n >>> 6), 128 ||| (n &&& 63)]
  else if n < 65536 then
    [224 ||| (n >>> 12), 128 ||| ((n >>> 6) &&& 63), 128 ||| (n &&& 63)]
  else
    [240 ||| (n >>> 18), 128 ||| ((n >>> 12) &&& 63),
     128 ||| ((n >>> 6) &&& 63), 128 ||| (n &&& 63)]

/-- Uppercase hexadecimal digit. -/
def hexDigit (n : Nat) : Char :=
  if n < 10 then Char.ofNat (48 + n) else Char.ofNat (55 + n)

/-- One byte under `application/x-www-form-urlencoded` serialization as
performed by `URLSearchParams.toString()`: space becomes `+`,
alphanumerics and `*-._` pass through, everything else is
percent-encoded. -/
def formEncodeByte (n : Nat) : String :=
  if n = 32 then "+"
  else if (48 ≤ n ∧ n ≤ 57) ∨ (65 ≤ n ∧ n ≤ 90) ∨ (97 ≤ n ∧ n ≤ 122) ∨
      n = 42 ∨ n = 45 ∨ n = 46 ∨ n = 95 then
    String.singleton (Char.ofNat n)
  else
    "%" ++ String.singleton (hexDigit (n / 16)) ++ String.singleton (hexDigit (n % 16))

/-- Form-urlencoded serialization of a string. -/
def formEncode (s : String) : String :=
  String.join (((s.toList.map (fun c => utf8Bytes c.toNat)).flatten).map formEncodeByte)

/-- Serialization of a `URLSearchParams` list. -/
def serializeQuery (ps : List (String × String)) : String :=
  String.intercalate "&" (ps.map fun p => formEncode p.1 ++ "=" ++ formEncode p.2)

/-- The query parameters appended by `buildAuthorizationUrl` (`oauth.js`
lines 247-279), in the order of the `searchParams.append` calls. -/
def buildAuthorizationUrlParams (challenge st redirectUri : String)
    (scopes : List String) : List (String × String) :=
  [("client_id", oauthClientId),
   ("redirect_uri", redirectUri),
   ("response_type", "code"),
   ("scope", String.intercalate " " scopes),
   ("code_challenge", challenge),
   ("code_challenge_method", "S256"),
   ("state", st),
   ("prompt", oauthPrompt)]

/-- Embedding of `buildAuthorizationUrl` from `oauth.js` lines 247-279:
the authorize endpoint with the appended query parameters, serialized the
way `url.toString()` renders them. -/
def buildAuthorizationUrl (challenge st redirectUri : String)
    (scopes : List String) : String :=
  oauthAuthUrl ++ "?" ++ serializeQuery (buildAuthorizationUrlParams challenge st redirectUri scopes)

/-- A token-endpoint HTTP response as seen by `oauth.js`: the fetch
status and the fields read out of the response JSON (absent fields are
`none`; `expires_in` is an optional integer). -/
structure HttpResponse where
  ok : Bool
  status : Nat
  statusText : String
  access_token : Option String
  refresh_token : Option String
  expires_in : Option Int
  scope : Option String
  token_type : Option String
  error : Option String
deriving DecidableEq, Repr

/-- The validated token data returned on success by `exchangeCodeForToken`
and `refreshAccessToken` (the three required fields are present). -/
structure TokenResponseData where
  access_token : String
  refresh_token : String
  expires_in : Int
  scope : Option String
  token_type : Option String
deriving DecidableEq, Repr

/-- Embedding of the response handling of `exchangeCodeForToken`
(`oauth.js` lines 290-359): non-2xx fails with the status; a 2xx response
must carry truthy `access_token`, `refresh_token` and `expires_in`, each
absence failing with a distinct message; nothing is defaulted. -/
def exchangeCodeForToken (resp : HttpResponse) : Except String TokenResponseData :=
  if ¬ resp.ok then
    .error ("Token exchange failed: " ++ toString resp.status ++ " " ++ resp.statusText)
  else if ¬ jsTruthyStr resp.access_token then
    .error "Token response missing access_token"
  else if ¬ jsTruthyStr resp.refresh_token then
    .error "Token response missing refresh_token"
  else if ¬ jsTruthyInt resp.expires_in then
    .error "Token response missing expires_in"
  else
    .ok ⟨resp.access_token.getD "", resp.refresh_token.getD "",
         resp.expires_in.getD 0, resp.scope, resp.token_type⟩

/-- The message raised by `refreshAccessToken` on `invalid_grant`
(`oauth.js` lines 396-401). -/
def invalidGrantMsg : String :=
  "invalid_grant: Refresh token expired or revoked. Please re-authenticate."

/-- Embedding of the response handling of `refreshAccessToken`
(`oauth.js` lines 367-437): a non-2xx response whose error body carries
`error = 'invalid_grant'` raises the distinct invalid-grant message, any
other non-2xx the generic one; a 2xx response is validated for the three
required fields. -/
def refreshAccessToken (resp : HttpResponse) : Except String TokenResponseData :=
  if ¬ resp.ok then
    if resp.error = some "invalid_grant" then
      .error invalidGrantMsg
    else
      .error ("Token refresh failed: " ++ toString resp.status ++ " " ++ resp.statusText)
  else if ¬ jsTruthyStr resp.access_token then
    .error "Refresh response missing access_token"
  else if ¬ jsTruthyStr resp.refresh_token then
    .error "Refresh response missing refresh_token"
  else if ¬ jsTruthyInt resp.expires_in then
    .error "Refresh response missing expires_in"
  else
    .ok ⟨resp.access_token.getD "", resp.refresh_token.getD "",
         resp.expires_in.getD 0, resp.scope, resp.token_type⟩

/-! Embedding of `src/auth/callback-server.js`. -/

/-- One GET request as seen by the callback handler: the parsed path and
the four query parameters it reads (`searchParams.get` yields `null` for
an absent parameter). -/
structure CallbackRequest where
  path : String
  code : Option String
  callbackState : Option String
  error : Option String
  errorDescription : Option String
deriving DecidableEq, Repr

/-- The outcome of handling one request in `waitForCallback`: resolve with
`(code, state)`, or reject with the OAuth error / missing-code /
state-mismatch errors, or answer 404 and keep waiting. -/
inductive CallbackOutcome where
  | success (code st : String)
  | oauthError (msg : String)
  | missingCode
  | csrfReject
  | notFound
deriving DecidableEq, Repr

/-- Embedding of the request handler of `waitForCallback`
(`callback-server.js` lines 171-257): on `/callback`, a truthy `error`
parameter rejects with the OAuth error; an absent (or falsy) `code`
rejects as missing; an absent `state` or one differing from
`expectedState` rejects as a CSRF state mismatch; otherwise the promise
resolves with `(code, state)`.  Other paths get a 404. -/
def handleCallbackRequest (expectedState : String) (req : CallbackRequest) :
    CallbackOutcome :=
  if req.path = "/callback" then
    if jsTruthyStr req.error then
      .oauthError (jsOrStr req.errorDescription (req.error.getD ""))
    else if ¬ jsTruthyStr req.code then
      .missingCode
    else if ¬ jsTruthyStr req.callbackState ∨ req.callbackState ≠ some expectedState then
      .csrfReject
    else
      .success (req.code.getD "") (req.callbackState.getD "")
  else
    .notFound

/-- Status of a local TCP port for the bind model. -/
inductive PortStatus where
  | free
  | inUse
  | denied
deriving DecidableEq, Repr

/-- Outcome of the listen phase of `waitForCallback`. -/
inductive BindOutcome where
  | listening (port : Nat)
  | bindError (msg : String)
deriving DecidableEq, Repr

/-- Embedding of the bind phase of `waitForCallback`
(`callback-server.js` lines 260-292): `server.listen(port, host)` either
succeeds on the single configured port or, on an `EADDRINUSE`/`EACCES`
error event, rejects with the corresponding message.  The source attempts
exactly one port. -/
def waitForCallbackBind (status : Nat → PortStatus) (port : Nat) : BindOutcome :=
  match status port with
  | .free => .listening port
  | .inUse =>
    .bindError ("Port " ++ toString port ++
      " is already in use. Please check if another process is using it.")
  | .denied =>
    .bindError ("Permission denied to bind to port " ++ toString port ++
      ". Try a different port.")

/-! Embedding of `src/auth/token-refresh.js` and the exchange-and-store
phase of `authenticate` in `src/auth/index.js`.

JavaScript promises are modelled by numeric identifiers.  The singleton
`TokenRefreshManager` becomes an explicit state record; the synchronous
prefix of `refresh()` (the single-flight check and lock acquisition, lines
38-53) is one atomic step, which is exactly the run-to-completion
guarantee of the event loop: no other caller can run between the
`isRefreshing` test and the assignment of `refreshPromise`. -/

/-- Substring test, for `error.message.includes('invalid_grant')`. -/
def strContains (hay needle : String) : Bool :=
  decide (needle.toList <:+: hay.toList)

/-- JavaScript `scope ? scope.split(' ') : []` from `token-refresh.js`
line 68 and `index.js` line 102. -/
def splitScopeJS (scope : Option String) : List String :=
  match scope with
  | none => []
  | some s => if s = "" then [] else s.splitOn " "

/-- The mutable fields of the singleton `TokenRefreshManager`
(`token-refresh.js` lines 18-25): the lock flag and the pending refresh
promise (modelled by its identifier). -/
structure RefreshManagerState where
  isRefreshing : Bool
  refreshPromise : Option Nat
deriving DecidableEq, Repr

/-- The synchronous prefix of `TokenRefreshManager.refresh` (lines 38-53,
99): a caller either joins the pending promise (when `isRefreshing` and
`refreshPromise` are both set) or acquires the lock and installs a fresh
promise.  Returns the promise the caller awaits, the new manager state,
and whether a new refresh operation (hence a new network call) was
started. -/
def refreshEnter (mgr : RefreshManagerState) (fresh : Nat) :
    Nat × RefreshManagerState × Bool :=
  match mgr.isRefreshing, mgr.refreshPromise with
  | true, some p => (p, mgr, false)
  | true, none => (fresh, ⟨true, some fresh⟩, true)
  | false, _ => (fresh, ⟨true, some fresh⟩, true)

/-- What one call to `getValidAccessToken` does up to its first await on
the refresh promise. -/
inductive CallerAction where
  | noCredentials
  | cached (token : String)
  | awaitRefresh (id : Nat) (startedNew : Bool)
deriving DecidableEq, Repr

/-- One call of `getValidAccessToken` (`token-refresh.js` lines 168-210)
up to the point where it either returns without refreshing or awaits the
refresh promise: absent tokens yield `null`; a token satisfying
`now < expiresAt - bufferSeconds*1000` is returned from cache; otherwise
the caller enters `refreshTokens`, i.e. `refreshEnter`. -/
def getValidStep (tokens : Option TokenRecord) (now buffer : Int)
    (mgr : RefreshManagerState) (fresh : Nat) :
    CallerAction × RefreshManagerState :=
  match tokens with
  | none => (.noCredentials, mgr)
  | some t =>
    if now < t.expiresAt - buffer * 1000 then (.cached t.accessToken, mgr)
    else
      let (id, mgr', started) := refreshEnter mgr fresh
      (.awaitRefresh id started, mgr')

/-- N concurrent calls to `getValidAccessToken`, all arriving before the
in-flight refresh (if any) completes.  While a refresh is pending the
Credential Store still holds the old record, so every caller reads the
same `tokens` value; under the event-loop model their entry steps execute
sequentially in arrival order with fresh promise identifiers. -/
def runGetValidCallers : Nat → Option TokenRecord → Int → Int →
    RefreshManagerState → Nat → List CallerAction × RefreshManagerState
  | 0, _, _, _, mgr, _ => ([], mgr)
  | n + 1, tokens, now, buffer, mgr, fresh =>
    let (a, mgr') := getValidStep tokens now buffer mgr fresh
    let (rest, mgr'') := runGetValidCallers n tokens now buffer mgr' (fresh + 1)
    (a :: rest, mgr'')

/-- Number of refresh operations (network calls) started by a list of
caller actions. -/
def startedCount : List CallerAction → Nat
  | [] => 0
  | .awaitRefresh _ true :: rest => startedCount rest + 1
  | _ :: rest => startedCount rest

/-- Promise identifiers awaited by the callers that entered the refresh
path. -/
def awaitedIds : List CallerAction → List Nat
  | [] => []
  | .awaitRefresh i _ :: rest => i :: awaitedIds rest
  | _ :: rest => awaitedIds rest

/-- Embedding of the refresh task body of `TokenRefreshManager.refresh`
(`token-refresh.js` lines 53-97) applied to the provider's response: on
success the new record is stored (via `storeTokens`) and the new access
token returned; on failure the error is rethrown, after `clearTokens()`
when its message contains `invalid_grant`.  The manager lock is reset in
the `finally`; see `refreshSettle`. -/
def refreshComplete (resp : HttpResponse) (now : Int) (st : StoreState) :
    Except String String × StoreState :=
  match refreshAccessToken resp with
  | .ok data =>
    let expiresAt := now + data.expires_in * 1000
    let newTokens : RawTokens :=
      ⟨some data.access_token, some data.refresh_token, some expiresAt,
       some (splitScopeJS data.scope), some (jsOrStr data.token_type "Bearer")⟩
    match storeTokens newTokens st with
    | (.ok _, st') => (.ok data.access_token, st')
    | (.error e, st') =>
      if strContains e "invalid_grant" then (.error e, clearTokens st')
      else (.error e, st')
  | .error e =>
    if strContains e "invalid_grant" then (.error e, clearTokens st)
    else (.error e, st)

/-- The `finally` block of the refresh task (lines 92-96): reset the lock
and the pending promise. -/
def refreshSettle (_mgr : RefreshManagerState) : RefreshManagerState :=
  ⟨false, none⟩

/-- The promise table after the single refresh operation (promise `0`)
settles with result `res`: awaiting promise `0` yields `res`; no other
promise exists. -/
def promiseTable (res : Except String String) : Nat → Except String String :=
  fun i => if i = 0 then res else .error "unresolved promise"

/-- What one caller of `getValidAccessToken` returns and whether the
refresh network path ran, for the sequential model of lines 168-210. -/
structure AccessTokenOutcome where
  result : Option String
  store : StoreState
  refreshInvoked : Bool
deriving DecidableEq, Repr

/-- Embedding of a single (non-concurrent) run of `getValidAccessToken`
(`token-refresh.js` lines 168-210), parameterized like the source by the
record its `getTokensFn` argument returned: absent tokens give `null`
without touching anything; a still-valid token is returned with no
network call and no store access; otherwise `refreshTokens` runs against
the provider response `resp` and its result is returned, a refresh
failure being caught and turned into `null` (the re-authentication
signal). -/
def getValidAccessToken (tokens : Option TokenRecord) (now buffer : Int)
    (resp : HttpResponse) (st : StoreState) : AccessTokenOutcome :=
  match tokens with
  | none => ⟨none, st, false⟩
  | some t =>
    if now < t.expiresAt - buffer * 1000 then ⟨some t.accessToken, st, false⟩
    else
      match refreshComplete resp now st with
      | (.ok tok, st') => ⟨some tok, st', true⟩
      | (.error _, st') => ⟨none, st', true⟩

/-- Embedding of steps 6-7 of `authenticate` (`index.js` lines 86-112):
exchange the authorization code (here: handle the token endpoint's
response) and, only on success, build the record and store it.  A thrown
exchange error propagates out of `authenticate` before `storeTokens` is
reached. -/
def authenticateExchangePhase (resp : HttpResponse) (now : Int)
    (st : StoreState) : Except String RawTokens × StoreState :=
  match exchangeCodeForToken resp with
  | .error e => (.error e, st)
  | .ok data =>
    let expiresAt := now + data.expires_in * 1000
    let tokens : RawTokens :=
      ⟨some data.access_token, some data.refresh_token, some expiresAt,
       some (splitScopeJS data.scope), some (jsOrStr data.token_type "Bearer")⟩
    match storeTokens tokens st with
    | (.ok _, st') => (.ok tokens, st')
    | (.error e, st') => (.error e, st')

/-! Helper lemmas. -/

lemma runGetValidCallers_locked (m : Nat) (t : TokenRecord) (now buffer : Int)
    (p : Nat) :
    ∀ fresh, ¬ now < t.expiresAt - buffer * 1000 →
      runGetValidCallers m (some t) now buffer ⟨true, some p⟩ fresh =
        (List.replicate m (CallerAction.awaitRefresh p false), ⟨true, some p⟩) := by
  induction m with
  | zero =>
    intro fresh _
    simp [runGetValidCallers]
  | succ k ih =>
    intro fresh h
    simp [runGetValidCallers, getValidStep, refreshEnter, h, ih (fresh + 1) h,
      List.replicate_succ]

lemma startedCount_replicate (n p : Nat) :
    startedCount (List.replicate n (CallerAction.awaitRefresh p false)) = 0 := by
  induction n with
  | zero => simp [startedCount]
  | succ k ih => simp [List.replicate_succ, startedCount, ih]

lemma awaitedIds_replicate (n p : Nat) :
    awaitedIds (List.replicate n (CallerAction.awaitRefresh p false)) =
      List.replicate n p := by
  induction n with
  | zero => simp [awaitedIds]
  | succ k ih => simp [List.replicate_succ, awaitedIds, ih]

lemma runGetValidCallers_expired (n : Nat) (t : TokenRecord) (now buffer : Int)
    (hn : 1 ≤ n) (hexp : ¬ now < t.expiresAt - buffer * 1000) :
    (runGetValidCallers n (some t) now buffer ⟨false, none⟩ 0).1 =
      CallerAction.awaitRefresh 0 true ::
        List.replicate (n - 1) (CallerAction.awaitRefresh 0 false) := by
  obtain ⟨m, rfl⟩ : ∃ m, n = m + 1 := ⟨n - 1, (Nat.succ_pred_eq_of_pos hn).symm⟩
  simp [runGetValidCallers, getValidStep, refreshEnter, hexp,
    runGetValidCallers_locked m t now buffer 0 1 hexp]

/-! Claims. -/

/-- C1: for every N ≥ 1 concurrent calls to `getValidAccessToken` made
while the stored record is expired (`now ≥ expiresAt - bufferSeconds*1000`),
exactly one refresh operation — hence one `refreshAccessToken` network
call — is started in the process; every caller awaits the same promise
(identifier 0), so once it settles all N observe the same resulting
access token. -/
theorem singleFlight_refresh_exactly_once (n : Nat) (t : TokenRecord)
    (now buffer : Int) (hn : 1 ≤ n)
    (hexp : ¬ now < t.expiresAt - buffer * 1000) :
    startedCount (runGetValidCallers n (some t) now buffer ⟨false, none⟩ 0).1 = 1 ∧
    awaitedIds (runGetValidCallers n (some t) now buffer ⟨false, none⟩ 0).1 =
      List.replicate n 0 ∧
    ∀ res : Except String String,
      (awaitedIds (runGetValidCallers n (some t) now buffer ⟨false, none⟩ 0).1).map
          (promiseTable res) =
        List.replicate n res := by
  rw [runGetValidCallers_expired n t now buffer hn hexp]
  refine ⟨?_, ?_, ?_⟩
  · simp [startedCount, startedCount_replicate]
  · rw [show awaitedIds (CallerAction.awaitRefresh 0 true ::
        List.replicate (n - 1) (CallerAction.awaitRefresh 0 false)) =
        0 :: List.replicate (n - 1) 0 by simp [awaitedIds, awaitedIds_replicate]]
    rw [← List.replicate_succ]
    congr 1
    omega
  · intro res
    rw [show awaitedIds (CallerAction.awaitRefresh 0 true ::
        List.replicate (n - 1) (CallerAction.awaitRefresh 0 false)) =
        0 :: List.replicate (n - 1) 0 by simp [awaitedIds, awaitedIds_replicate]]
    rw [show (0 :: List.replicate (n - 1) 0).map (promiseTable res) =
        res :: List.replicate (n - 1) res by simp [promiseTable]]
    rw [← List.replicate_succ]
    congr 1
    omega

/-- C1 witness: three concurrent callers with an expired record start one
refresh, all awaiting promise 0 and observing the one refreshed token. -/
theorem singleFlight_refresh_exactly_once_witness :
    startedCount (runGetValidCallers 3 (some ⟨"a", "r", 50, [], "Bearer"⟩)
        100 60 ⟨false, none⟩ 0).1 = 1 ∧
    awaitedIds (runGetValidCallers 3 (some ⟨"a", "r", 50, [], "Bearer"⟩)
        100 60 ⟨false, none⟩ 0).1 = List.replicate 3 0 ∧
    ∀ res : Except String String,
      (awaitedIds (runGetValidCallers 3 (some ⟨"a", "r", 50, [], "Bearer"⟩)
          100 60 ⟨false, none⟩ 0).1).map (promiseTable res) =
        List.replicate 3 res :=
  singleFlight_refresh_exactly_once 3 ⟨"a", "r", 50, [], "Bearer"⟩ 100 60
    (by decide) (by decide)

/-- C2: a refresh attempt answered with an `invalid_grant` error rejects
with the distinct re-authentication message and, before the rejection
reaches the waiters, clears the Credential Store across all writable
backends — in-memory blob, OS keychain entry (when keytar is available),
and fallback file; every concurrent waiter awaits the same settled
promise and therefore receives that same failure. -/
theorem invalidGrant_clears_all_backends (resp : HttpResponse) (now : Int)
    (st : StoreState) (hok : resp.ok = false)
    (herr : resp.error = some "invalid_grant") :
    (refreshComplete resp now st).1 = .error invalidGrantMsg ∧
    (refreshComplete resp now st).2.inMemory = none ∧
    (refreshComplete resp now st).2.file = none ∧
    (st.keytarAvailable = true → (refreshComplete resp now st).2.keychain = none) ∧
    ∀ (n : Nat) (t : TokenRecord) (now' buffer : Int), 1 ≤ n →
      ¬ now' < t.expiresAt - buffer * 1000 →
      (awaitedIds (runGetValidCallers n (some t) now' buffer ⟨false, none⟩ 0).1).map
          (promiseTable (refreshComplete resp now st).1) =
        List.replicate n (Except.error invalidGrantMsg) := by
  have hig : strContains invalidGrantMsg "invalid_grant" = true := by decide
  have hres : refreshComplete resp now st = (.error invalidGrantMsg, clearTokens st) := by
    simp [refreshComplete, refreshAccessToken, hok, herr, hig]
  refine ⟨by simp [hres], by simp [hres, clearTokens], by simp [hres, clearTokens],
    fun hk => by simp [hres, clearTokens, hk], ?_⟩
  intro n t now' buffer hn hexp
  rw [runGetValidCallers_expired n t now' buffer hn hexp]
  rw [show awaitedIds (CallerAction.awaitRefresh 0 true ::
      List.replicate (n - 1) (CallerAction.awaitRefresh 0 false)) =
      0 :: List.replicate (n - 1) 0 by simp [awaitedIds, awaitedIds_replicate]]
  rw [show (0 :: List.replicate (n - 1) 0).map
      (promiseTable (refreshComplete resp now st).1) =
      (refreshComplete resp now st).1 :: List.replicate (n - 1)
        (refreshComplete resp now st).1 by simp [promiseTable]]
  rw [hres]
  rw [← List.replicate_succ]
  congr 1
  omega

/-- C2 witness: a concrete 400 `invalid_grant` response against a fully
populated store empties every backend and rejects with the
re-authentication message. -/
theorem invalidGrant_clears_all_backends_witness :
    (refreshComplete ⟨false, 400, "Bad Request", none, none, none, none, none,
        some "invalid_grant"⟩ 1000
      ⟨some ⟨some "mA", some "mR", some 9, none, none⟩, true,
       some ⟨some "kA", some "kR", some 9, none, none⟩,
       some ⟨some "fA", some "fR", some 9, none, none⟩, none, none, none⟩).1 =
      .error invalidGrantMsg ∧
    (refreshComplete ⟨false, 400, "Bad Request", none, none, none, none, none,
        some "invalid_grant"⟩ 1000
      ⟨some ⟨some "mA", some "mR", some 9, none, none⟩, true,
       some ⟨some "kA", some "kR", some 9, none, none⟩,
       some ⟨some "fA", some "fR", some 9, none, none⟩, none, none, none⟩).2.keychain =
      none :=
  ⟨(invalidGrant_clears_all_backends _ 1000 _ rfl rfl).1,
   (invalidGrant_clears_all_backends _ 1000 _ rfl rfl).2.2.2.1 rfl⟩

/-- C3: a callback request on `/callback` carrying a code whose `state`
parameter is absent or not exactly equal to the session's expected state
never resolves the promise (so no code exchange can run, whatever the
code's value), and — whenever no OAuth `error` parameter preempts it —
the rejection is specifically the CSRF state-mismatch error. -/
theorem stateMismatch_always_rejected (expectedState : String)
    (req : CallbackRequest) (hpath : req.path = "/callback")
    (hcode : jsTruthyStr req.code = true)
    (hstate : req.callbackState ≠ some expectedState) :
    (∀ c s, handleCallbackRequest expectedState req ≠ .success c s) ∧
    (jsTruthyStr req.error = false →
      handleCallbackRequest expectedState req = .csrfReject) := by
  constructor
  · intro c s
    by_cases herr : jsTruthyStr req.error = true
    · simp [handleCallbackRequest, hpath, herr]
    · simp [handleCallbackRequest, hpath, herr, hcode, hstate]
  · intro herr
    simp [handleCallbackRequest, hpath, herr, hcode, hstate]

/-- C3 witness: a request with a code and a wrong state is rejected as a
CSRF mismatch and never resolves. -/
theorem stateMismatch_always_rejected_witness :
    (∀ c s, handleCallbackRequest "S"
      ⟨"/callback", some "goodcode", some "X", none, none⟩ ≠ .success c s) ∧
    handleCallbackRequest "S"
      ⟨"/callback", some "goodcode", some "X", none, none⟩ = .csrfReject :=
  ⟨(stateMismatch_always_rejected "S" ⟨"/callback", some "goodcode", some "X", none, none⟩
      rfl rfl (by decide)).1,
   (stateMismatch_always_rejected "S" ⟨"/callback", some "goodcode", some "X", none, none⟩
      rfl rfl (by decide)).2 rfl⟩

/-- C4: `getTokens` probes the backends in the fixed order in-memory,
environment, keychain, fallback file, returning the first structurally
valid record; in particular, with an empty in-memory cache and both the
environment and the keychain holding different valid records, the
environment record is returned. -/
theorem getTokens_precedence (st : StoreState) :
    (∀ t, normalizeTokens st.inMemory = some t → (getTokens st).1 = some t) ∧
    (st.inMemory = none → ∀ e, getTokensFromEnv st = some e →
      (getTokens st).1 = some e) ∧
    (st.inMemory = none → getTokensFromEnv st = none →
      st.keytarAvailable = true → ∀ raw k, st.keychain = some raw →
      normalizeTokens (some raw) = some k → (getTokens st).1 = some k) ∧
    (st.inMemory = none → getTokensFromEnv st = none →
      st.keytarAvailable = true → st.keychain = none →
      ∀ raw f, st.file = some raw → normalizeTokens (some raw) = some f →
      (getTokens st).1 = some f) ∧
    (∀ e k, st.inMemory = none → getTokensFromEnv st = some e →
      st.keychain = some (recordToRaw k) → e ≠ k → (getTokens st).1 = some e) := by
  refine ⟨?_, ?_, ?_, ?_, ?_⟩
  · intro t ht
    cases hm : st.inMemory with
    | none => rw [hm] at ht; simp [normalizeTokens] at ht
    | some raw =>
      rw [hm] at ht
      simp [getTokens, hm, ht]
  · intro hm e he
    simp [getTokens, hm, getTokensAfterMemory, he]
  · intro hm he hk raw k hraw hnorm
    simp [getTokens, hm, getTokensAfterMemory, he, getTokensKeychain, hk, hraw, hnorm]
  · intro hm he hk hkc raw f hraw hnorm
    simp [getTokens, hm, getTokensAfterMemory, he, getTokensKeychain, hk, hkc,
      getTokensFile, hraw, hnorm]
  · intro e k hm he _ _
    simp [getTokens, hm, getTokensAfterMemory, he]

/-- C4 witness: concrete store with the environment and keychain holding
different valid records and an empty cache; `getTokens` returns the
environment record. -/
theorem getTokens_precedence_witness :
    (getTokens ⟨none, true,
        some ⟨some "kA", some "kR", some 99, some [], some "Bearer"⟩, none,
        some "eA", some "eR", some "1234"⟩).1 =
      some ⟨"eA", "eR", 1234, ["read", "issues:create", "comments:create"], "Bearer"⟩ :=
  (getTokens_precedence _).2.2.2.2
    ⟨"eA", "eR", 1234, ["read", "issues:create", "comments:create"], "Bearer"⟩
    ⟨"kA", "kR", 99, [], "Bearer"⟩ rfl (by decide)
    (by decide) (by decide)

lemma jsOrStr_bearer_ne_empty (v : Option String) : jsOrStr v "Bearer" ≠ "" := by
  cases v with
  | none => simp [jsOrStr]
  | some s => by_cases h : s = "" <;> simp [jsOrStr, h]

lemma jsOrStr_some_ne (x d : String) (h : x ≠ "") : jsOrStr (some x) d = x := by
  simp [jsOrStr, h]

lemma normalizeTokens_roundtrip (raw : RawTokens) (t : TokenRecord)
    (h : normalizeTokens (some raw) = some t) :
    normalizeTokens (some (recordToRaw t)) = some t := by
  obtain ⟨oa, orr, oe, os, ot⟩ := raw
  cases oa with
  | none => simp [normalizeTokens, jsTruthyStr] at h
  | some a =>
  cases orr with
  | none => simp [normalizeTokens, jsTruthyStr] at h
  | some r =>
  cases oe with
  | none => simp [normalizeTokens, jsTruthyInt] at h
  | some e =>
  by_cases ha : a = ""
  · simp [normalizeTokens, jsTruthyStr, ha] at h
  by_cases hr : r = ""
  · simp [normalizeTokens, jsTruthyStr, hr] at h
  by_cases he : e = 0
  · simp [normalizeTokens, jsTruthyInt, he] at h
  have ht : t = ⟨a, r, e, jsOrScope os, jsOrStr ot "Bearer"⟩ := by
    simp [normalizeTokens, jsTruthyStr, jsTruthyInt, ha, hr, he] at h
    exact h.symm
  subst ht
  simp [normalizeTokens, recordToRaw, jsTruthyStr, jsTruthyInt, jsOrScope, ha, hr, he,
    jsOrStr_some_ne _ _ (jsOrStr_bearer_ne_empty ot)]

lemma getTokensFile_valid (st : StoreState) (t : TokenRecord)
    (h : (getTokensFile st).1 = some t) :
    normalizeTokens (some (recordToRaw t)) = some t := by
  unfold getTokensFile at h
  cases hf : st.file with
  | none => rw [hf] at h; simp at h
  | some raw =>
    rw [hf] at h
    dsimp only at h
    cases hn : normalizeTokens (some raw) with
    | none => rw [hn] at h; simp at h
    | some tok =>
      rw [hn] at h
      simp at h
      exact h ▸ normalizeTokens_roundtrip raw tok hn

lemma getTokensKeychain_valid (st : StoreState) (t : TokenRecord)
    (h : (getTokensKeychain st).1 = some t) :
    normalizeTokens (some (recordToRaw t)) = some t := by
  unfold getTokensKeychain at h
  by_cases hk : st.keytarAvailable
  · rw [if_pos hk] at h
    cases hkc : st.keychain with
    | none => rw [hkc] at h; exact getTokensFile_valid st t h
    | some raw =>
      rw [hkc] at h
      dsimp only at h
      cases hn : normalizeTokens (some raw) with
      | none => rw [hn] at h; simp at h
      | some tok =>
        rw [hn] at h
        simp at h
        exact h ▸ normalizeTokens_roundtrip raw tok hn
  · rw [if_neg hk] at h
    exact getTokensFile_valid st t h

lemma getTokensFromEnv_none (st : StoreState) (henv : st.envAccessToken = none) :
    getTokensFromEnv st = none := by
  simp [getTokensFromEnv, henv, jsTruthyStr]

lemma getTokensAfterMemory_valid (st : StoreState) (t : TokenRecord)
    (henv : st.envAccessToken = none)
    (h : (getTokensAfterMemory st).1 = some t) :
    normalizeTokens (some (recordToRaw t)) = some t := by
  unfold getTokensAfterMemory at h
  rw [getTokensFromEnv_none st henv] at h
  exact getTokensKeychain_valid st t h

/-- C5 counterexample: the in-memory cache is empty, the keychain entry is
structurally corrupt (empty `accessToken`) and the fallback file holds a
valid record, yet `getTokens` returns `null` — the valid file record is
never reached — and wipes the keychain *and* the fallback file rather than
purging only the corrupt source. -/
theorem corruptKeychain_blocks_validFile :
    normalizeTokens (some ⟨some "", some "kR", some 99, none, none⟩) = none ∧
    normalizeTokens (some ⟨some "fA", some "fR", some 77, some [], some "Bearer"⟩) =
      some ⟨"fA", "fR", 77, [], "Bearer"⟩ ∧
    (getTokens ⟨none, true, some ⟨some "", some "kR", some 99, none, none⟩,
        some ⟨some "fA", some "fR", some 77, some [], some "Bearer"⟩,
        none, none, none⟩).1 = none ∧
    (getTokens ⟨none, true, some ⟨some "", some "kR", some 99, none, none⟩,
        some ⟨some "fA", some "fR", some 77, some [], some "Bearer"⟩,
        none, none, none⟩).2.file = none := by
  decide

/-- C5 amended: a structurally invalid record in the in-memory cache is
purged from memory only and probing continues; a structurally invalid
keychain entry triggers a full `clearTokens` (all writable backends) and
`getTokens` returns `null` without probing the fallback file; a
structurally invalid fallback-file record only unlinks that file; and
(absent the unvalidated environment bootstrap) no structurally invalid
record is ever returned to the caller. -/
theorem getTokens_corrupt_source_behavior (st : StoreState) :
    (∀ raw, st.inMemory = some raw → normalizeTokens (some raw) = none →
      getTokens st = getTokens { st with inMemory := none }) ∧
    (∀ raw, st.inMemory = none → getTokensFromEnv st = none →
      st.keytarAvailable = true → st.keychain = some raw →
      normalizeTokens (some raw) = none →
      getTokens st = (none, clearTokens st)) ∧
    (∀ raw, st.inMemory = none → getTokensFromEnv st = none →
      st.keychain = none → st.file = some raw →
      normalizeTokens (some raw) = none →
      getTokens st = (none, { st with file := none })) ∧
    (∀ t, st.envAccessToken = none → (getTokens st).1 = some t →
      normalizeTokens (some (recordToRaw t)) = some t) := by
  refine ⟨?_, ?_, ?_, ?_⟩
  · intro raw hm hn
    simp [getTokens, hm, hn]
  · intro raw hm henv hka hkc hn
    simp [getTokens, hm, getTokensAfterMemory, henv, getTokensKeychain, hka, hkc, hn]
  · intro raw hm henv hkc hf hn
    by_cases hka : st.keytarAvailable
    · simp [getTokens, hm, getTokensAfterMemory, henv, getTokensKeychain, hka, hkc,
        getTokensFile, hf, hn]
    · simp [getTokens, hm, getTokensAfterMemory, henv, getTokensKeychain, hka,
        getTokensFile, hf, hn]
  · intro t henv hres
    unfold getTokens at hres
    cases hm : st.inMemory with
    | none =>
      rw [hm] at hres
      exact getTokensAfterMemory_valid st t henv hres
    | some raw =>
      rw [hm] at hres
      dsimp only at hres
      cases hn : normalizeTokens (some raw) with
      | none =>
        rw [hn] at hres
        simp at hres
        exact getTokensAfterMemory_valid { st with inMemory := none } t henv hres
      | some tok =>
        rw [hn] at hres
        simp at hres
        exact hres ▸ normalizeTokens_roundtrip raw tok hn

/-- C5 amended witness: a corrupt keychain entry in the concrete
counterexample store yields `null` with everything cleared, and a corrupt
in-memory blob merely restarts probing without it. -/
theorem getTokens_corrupt_source_behavior_witness :
    getTokens ⟨none, true, some ⟨some "", some "kR", some 99, none, none⟩,
        some ⟨some "fA", some "fR", some 77, some [], some "Bearer"⟩,
        none, none, none⟩ =
      (none, clearTokens ⟨none, true, some ⟨some "", some "kR", some 99, none, none⟩,
        some ⟨some "fA", some "fR", some 77, some [], some "Bearer"⟩,
        none, none, none⟩) :=
  (getTokens_corrupt_source_behavior _).2.1 ⟨some "", some "kR", some 99, none, none⟩
    rfl (by decide) rfl rfl (by decide)

/-- C6 counterexample: with the primary port 34711 in use and port 34712
free, the listener does not capture the callback on any fallback port — it
rejects immediately with the port-in-use error, refuting the claimed
fallback-port retry. -/
theorem portInUse_no_fallback_retry :
    (fun p => if p = 34711 then PortStatus.inUse else PortStatus.free) 34712 =
      PortStatus.free ∧
    waitForCallbackBind (fun p => if p = 34711 then PortStatus.inUse else PortStatus.free)
        34711 =
      BindOutcome.bindError
        "Port 34711 is already in use. Please check if another process is using it." := by
  exact ⟨rfl, rfl⟩

/-- C6 amended: when binding the configured port fails with
address-in-use, `waitForCallback` rejects immediately with a port-in-use
error naming that port; no fallback ports are attempted (the source tries
exactly one port).  Binding a free port succeeds on that port. -/
theorem bindFailure_rejects_immediately (status : Nat → PortStatus) (port : Nat) :
    (status port = .inUse →
      waitForCallbackBind status port =
        .bindError ("Port " ++ toString port ++
          " is already in use. Please check if another process is using it.")) ∧
    (status port = .free → waitForCallbackBind status port = .listening port) := by
  constructor
  · intro h
    simp [waitForCallbackBind, h]
  · intro h
    simp [waitForCallbackBind, h]

/-- C6 amended witness: the concrete busy-primary scenario rejects with
the port-in-use error. -/
theorem bindFailure_rejects_immediately_witness :
    waitForCallbackBind (fun p => if p = 34711 then PortStatus.inUse else PortStatus.free)
        34711 =
      BindOutcome.bindError
        "Port 34711 is already in use. Please check if another process is using it." :=
  (bindFailure_rejects_immediately
    (fun p => if p = 34711 then PortStatus.inUse else PortStatus.free) 34711).1 rfl

/-- C7: a 2xx token-endpoint response missing `access_token`,
`refresh_token` or `expires_in` makes the exchange-and-store phase of
`authenticate` fail with the corresponding protocol error, and no token
record is written to any backend of the Credential Store (the store state
is returned untouched). -/
theorem malformedTokenResponse_no_store (resp : HttpResponse) (now : Int)
    (st : StoreState) (hok : resp.ok = true)
    (hmiss : resp.access_token = none ∨ resp.refresh_token = none ∨
      resp.expires_in = none) :
    ((authenticateExchangePhase resp now st).1 =
        .error "Token response missing access_token" ∨
     (authenticateExchangePhase resp now st).1 =
        .error "Token response missing refresh_token" ∨
     (authenticateExchangePhase resp now st).1 =
        .error "Token response missing expires_in") ∧
    (authenticateExchangePhase resp now st).2 = st := by
  have hex : (exchangeCodeForToken resp = .error "Token response missing access_token") ∨
      (exchangeCodeForToken resp = .error "Token response missing refresh_token") ∨
      (exchangeCodeForToken resp = .error "Token response missing expires_in") := by
    by_cases ha : jsTruthyStr resp.access_token
    · by_cases hr : jsTruthyStr resp.refresh_token
      · by_cases he : jsTruthyInt resp.expires_in
        · exfalso
          rcases hmiss with h | h | h
          · rw [h] at ha; simp [jsTruthyStr] at ha
          · rw [h] at hr; simp [jsTruthyStr] at hr
          · rw [h] at he; simp [jsTruthyInt] at he
        · right; right
          simp [exchangeCodeForToken, hok, ha, hr, he]
      · right; left
        simp [exchangeCodeForToken, hok, ha, hr]
    · left
      simp [exchangeCodeForToken, hok, ha]
  rcases hex with h | h | h <;>
    simp [authenticateExchangePhase, h]

/-- C7 witness: a 200 response missing `refresh_token` fails with the
protocol error and leaves the store untouched. -/
theorem malformedTokenResponse_no_store_witness :
    ((authenticateExchangePhase
        ⟨true, 200, "OK", some "A", none, some 3600, some "read", some "Bearer", none⟩ 0
        ⟨none, true, none, none, none, none, none⟩).1 =
          .error "Token response missing access_token" ∨
     (authenticateExchangePhase
        ⟨true, 200, "OK", some "A", none, some 3600, some "read", some "Bearer", none⟩ 0
        ⟨none, true, none, none, none, none, none⟩).1 =
          .error "Token response missing refresh_token" ∨
     (authenticateExchangePhase
        ⟨true, 200, "OK", some "A", none, some 3600, some "read", some "Bearer", none⟩ 0
        ⟨none, true, none, none, none, none, none⟩).1 =
          .error "Token response missing expires_in") ∧
    (authenticateExchangePhase
        ⟨true, 200, "OK", some "A", none, some 3600, some "read", some "Bearer", none⟩ 0
        ⟨none, true, none, none, none, none, none⟩).2 =
      ⟨none, true, none, none, none, none, none⟩ :=
  malformedTokenResponse_no_store
    ⟨true, 200, "OK", some "A", none, some 3600, some "read", some "Bearer", none⟩ 0
    ⟨none, true, none, none, none, none, none⟩ rfl (Or.inr (Or.inl rfl))

set_option maxRecDepth 4000 in
/-- C8: the authorization URL builder is a pure string-building function
whose query consists of exactly the eight parameters `client_id`,
`redirect_uri`, `response_type=code`, `scope` (the scopes joined by
spaces), `code_challenge`, `code_challenge_method=S256`, `state` and
`prompt=consent`, for every challenge, state, redirect URI and scope
list; in the spec's concrete scenario the rendered URL contains
`scope=read+issues%3Acreate`, `code_challenge=C`,
`code_challenge_method=S256`, `state=S` and `prompt=consent`. -/
theorem buildAuthorizationUrl_exact_params (challenge stt redirectUri : String)
    (scopes : List String) :
    buildAuthorizationUrlParams challenge stt redirectUri scopes =
      [("client_id", "a3e177176c6697611367f1a2405d4a34"),
       ("redirect_uri", redirectUri),
       ("response_type", "code"),
       ("scope", String.intercalate " " scopes),
       ("code_challenge", challenge),
       ("code_challenge_method", "S256"),
       ("state", stt),
       ("prompt", "consent")] ∧
    ("scope=read+issues%3Acreate".toList <:+:
      (buildAuthorizationUrl "C" "S" "http://localhost:9000/cb"
        ["read", "issues:create"]).toList) ∧
    ("code_challenge=C&code_challenge_method=S256&state=S&prompt=consent".toList <:+:
      (buildAuthorizationUrl "C" "S" "http://localhost:9000/cb"
        ["read", "issues:create"]).toList) := by
  refine ⟨rfl, ?_, ?_⟩ <;> decide

/-- C9: `getValidAccessToken` returns `null` (not an error) when no
record is stored; when the record satisfies
`now < expiresAt - bufferSeconds*1000` it returns the cached access token
with the refresh path never invoked (no network call) and the store state
untouched (read-only path); otherwise it runs the refresh coordinator and
returns the refreshed token, or `null` — the re-authentication signal —
when the refresh fails. -/
theorem getValidAccessToken_paths (tokens : Option TokenRecord)
    (now buffer : Int) (resp : HttpResponse) (st : StoreState) :
    (tokens = none →
      getValidAccessToken tokens now buffer resp st = ⟨none, st, false⟩) ∧
    (∀ t, tokens = some t → now < t.expiresAt - buffer * 1000 →
      getValidAccessToken tokens now buffer resp st =
        ⟨some t.accessToken, st, false⟩) ∧
    (∀ t, tokens = some t → ¬ now < t.expiresAt - buffer * 1000 →
      (∀ tok st', refreshComplete resp now st = (.ok tok, st') →
        getValidAccessToken tokens now buffer resp st = ⟨some tok, st', true⟩) ∧
      (∀ e st', refreshComplete resp now st = (.error e, st') →
        getValidAccessToken tokens now buffer resp st = ⟨none, st', true⟩)) := by
  refine ⟨?_, ?_, ?_⟩
  · intro h
    simp [getValidAccessToken, h]
  · intro t ht hfresh
    simp [getValidAccessToken, ht, hfresh]
  · intro t ht hexp
    constructor
    · intro tok st' hrc
      simp [getValidAccessToken, ht, hexp, hrc]
    · intro e st' hrc
      simp [getValidAccessToken, ht, hexp, hrc]

/-- C9 witness: with no record the result is `null` and no refresh runs;
with a still-valid record the cached token is returned, the store
untouched and no refresh run. -/
theorem getValidAccessToken_paths_witness :
    getValidAccessToken none 0 60
        ⟨false, 500, "ISE", none, none, none, none, none, none⟩
        ⟨none, true, none, none, none, none, none⟩ =
      ⟨none, ⟨none, true, none, none, none, none, none⟩, false⟩ ∧
    getValidAccessToken (some ⟨"cachedA", "cachedR", 1000000, [], "Bearer"⟩) 0 60
        ⟨false, 500, "ISE", none, none, none, none, none, none⟩
        ⟨none, true, none, none, none, none, none⟩ =
      ⟨some "cachedA", ⟨none, true, none, none, none, none, none⟩, false⟩ :=
  ⟨(getValidAccessToken_paths none 0 60 _ _).1 rfl,
   (getValidAccessToken_paths (some ⟨"cachedA", "cachedR", 1000000, [], "Bearer"⟩)
      0 60 _ _).2.1 ⟨"cachedA", "cachedR", 1000000, [], "Bearer"⟩ rfl (by decide)⟩

/-- C10: `storeTokens` called with a record missing `accessToken`,
missing `refreshToken`, or whose `expiresAt` is absent (or not a number)
throws the corresponding validation error before modifying anything: the
in-memory cache, keychain entry and fallback file are all exactly as
before the call. -/
theorem storeTokens_validates_before_write (tokens : RawTokens) (st : StoreState)
    (hmiss : tokens.accessToken = none ∨ tokens.refreshToken = none ∨
      tokens.expiresAt = none) :
    ((storeTokens tokens st).1 = .error "Missing accessToken in token record" ∨
     (storeTokens tokens st).1 = .error "Missing refreshToken in token record" ∨
     (storeTokens tokens st).1 = .error "Missing or invalid expiresAt in token record") ∧
    (storeTokens tokens st).2 = st := by
  by_cases ha : jsTruthyStr tokens.accessToken
  · by_cases hr : jsTruthyStr tokens.refreshToken
    · have he : tokens.expiresAt = none := by
        rcases hmiss with h | h | h
        · rw [h] at ha; simp [jsTruthyStr] at ha
        · rw [h] at hr; simp [jsTruthyStr] at hr
        · exact h
      constructor
      · right; right
        simp [storeTokens, ha, hr, he]
      · simp [storeTokens, ha, hr, he]
    · constructor
      · right; left
        simp [storeTokens, ha, hr]
      · simp [storeTokens, ha, hr]
  · constructor
    · left
      simp [storeTokens, ha]
    · simp [storeTokens, ha]

/-- C10 witness: a record with no `refreshToken` is rejected and the
populated store is left exactly as it was. -/
theorem storeTokens_validates_before_write_witness :
    ((storeTokens ⟨some "newA", none, some 5, none, none⟩
        ⟨some ⟨some "mA", some "mR", some 9, none, none⟩, true,
         some ⟨some "kA", some "kR", some 9, none, none⟩,
         some ⟨some "fA", some "fR", some 9, none, none⟩, none, none, none⟩).1 =
          .error "Missing accessToken in token record" ∨
     (storeTokens ⟨some "newA", none, some 5, none, none⟩
        ⟨some ⟨some "mA", some "mR", some 9, none, none⟩, true,
         some ⟨some "kA", some "kR", some 9, none, none⟩,
         some ⟨some "fA", some "fR", some 9, none, none⟩, none, none, none⟩).1 =
          .error "Missing refreshToken in token record" ∨
     (storeTokens ⟨some "newA", none, some 5, none, none⟩
        ⟨some ⟨some "mA", some "mR", some 9, none, none⟩, true,
         some ⟨some "kA", some "kR", some 9, none, none⟩,
         some ⟨some "fA", some "fR", some 9, none, none⟩, none, none, none⟩).1 =
          .error "Missing or invalid expiresAt in token record") ∧
    (storeTokens ⟨some "newA", none, some 5, none, none⟩
        ⟨some ⟨some "mA", some "mR", some 9, none, none⟩, true,
         some ⟨some "kA", some "kR", some 9, none, none⟩,
         some ⟨some "fA", some "fR", some 9, none, none⟩, none, none, none⟩).2 =
      ⟨some ⟨some "mA", some "mR", some 9, none, none⟩, true,
       some ⟨some "kA", some "kR", some 9, none, none⟩,
       some ⟨some "fA", some "fR", some 9, none, none⟩, none, none, none⟩ :=
  storeTokens_validates_before_write ⟨some "newA", none, some 5, none, none⟩
    ⟨some ⟨some "mA", some "mR", some 9, none, none⟩, true,
     some ⟨some "kA", some "kR", some 9, none, none⟩,
     some ⟨some "fA", some "fR", some 9, none, none⟩, none, none, none⟩
    (Or.inr (Or.inl rfl))

end LinearAuth
